import Mathlib

/-!
# Verification of the kada-vandi marketplace core

A shallow embedding of the order/cart/inventory/geospatial logic of the
kada-vandi mobile marketplace, together with proofs and refutations of the
specification's claims about it.

The embedding follows the source:
* `src/contexts/cart.tsx` — the cart reducer and `getTotalAmount`;
* `src/app/(tabs)/cart.tsx` — `handlePlaceOrder`;
* `src/app/(tabs)/orders.tsx` — `updateInventoryQuantities`,
  `handleOrderAction`, `handleUpdateStatus`, and the status-button gating
  in the rendered order card;
* `src/app/(tabs)/inventory.tsx` — `updateItem` (vendor product edit);
* `src/sql/create_get_vendors_within_radius.sql` — the
  `get_active_vendors(lat, lng, max_distance_meters)` radius query.

Database tables are modelled as lists of rows; the remote store's
request/response boundary is modelled by explicit state passing, and the
client-side interleaving of two concurrent order acceptances is modelled
by a small step relation over shared state.  Monetary amounts and
coordinates are rationals; JavaScript `null`/`undefined` is `Option`.
-/

namespace KadaVandi

/-! ## Data model (`src/types/database.ts`) -/

/-- A row of the `products` table (`Product` in `src/types/database.ts`).
`description`, `expiration_date` and the timestamps play no role in any
claim and are omitted. -/
structure Product where
  id : String
  vendor_id : String
  name : String
  price : ℚ
  inventory_count : ℤ
deriving DecidableEq, Repr

/-- Order status literals, in the order of the `ORDER_STATUSES` array of
`src/app/(tabs)/orders.tsx`. -/
inductive OrderStatus where
  | PLACED
  | ACCEPTED
  | PREPARING
  | OUT_FOR_DELIVERY
  | DELIVERED
  | REJECTED
deriving DecidableEq, Repr, Fintype

/-- A row of the `orders` table.  The delivery-address snapshot is not
modelled (no claim mentions it).  `total_amount` is `Option` because the
client computes it with `getTotalAmount`, whose value is undefined (`none`)
when the cart holds a degenerate item. -/
structure OrderRow where
  id : String
  customer_id : String
  vendor_id : Option String
  status : OrderStatus
  total_amount : Option ℚ
deriving DecidableEq, Repr

/-- A row of the `order_items` table. -/
structure OrderItemRow where
  order_id : String
  product_id : String
  quantity : ℤ
  price : Option ℚ
deriving DecidableEq, Repr

/-- The slice of the remote store touched by the cart/order/inventory
screens. -/
structure DB where
  orders : List OrderRow
  order_items : List OrderItemRow
  products : List Product
deriving DecidableEq, Repr

/-! ## Cart reducer (`src/contexts/cart.tsx`) -/

/-- `CartItem extends Product { quantity }`.  In the source a cart item is
the object spread `{...product, quantity}`; the `UPDATE_QUANTITY` branch
spreads `state.items[productId]`, which is `undefined` when `productId` is
not a key of `items`, and then produces a degenerate `{quantity}` object
with no product fields.  We model the product fields jointly as an
`Option Product` (`none` = spread of `undefined`). -/
structure CartItem where
  product : Option Product
  quantity : ℤ
deriving DecidableEq, Repr

/-- Cart state: `items` is the `{ [key: string]: CartItem }` object,
modelled as an association list in key-insertion order (JavaScript string
keys enumerate in insertion order), plus the `vendorId : string | null`
field. -/
structure CartState where
  items : List (String × CartItem)
  vendorId : Option String
deriving DecidableEq, Repr

/-- `initialState` of the cart context. -/
def initialState : CartState := ⟨[], none⟩

/-- Object-spread update `{...items, [k]: v}`: replaces the value at an
existing key in place, otherwise appends the key. -/
def setEntry (items : List (String × CartItem)) (k : String) (v : CartItem) :
    List (String × CartItem) :=
  if items.any (fun e => e.1 = k) then
    items.map (fun e => if e.1 = k then (k, v) else e)
  else items ++ [(k, v)]

/-- Destructuring removal `const { [k]: removed, ...remaining } = items`. -/
def removeEntry (items : List (String × CartItem)) (k : String) :
    List (String × CartItem) :=
  items.filter (fun e => e.1 ≠ k)

/-- `state.items[productId]` — `none` for a missing key (`undefined`). -/
def lookupItem (items : List (String × CartItem)) (k : String) : Option CartItem :=
  (items.find? (fun e => e.1 = k)).map (fun e => e.2)

/-- The `CartAction` union of `src/contexts/cart.tsx`. -/
inductive CartAction where
  | ADD_ITEM (product : Product) (quantity : ℤ)
  | REMOVE_ITEM (productId : String)
  | UPDATE_QUANTITY (productId : String) (quantity : ℤ)
  | CLEAR_CART
  | SET_VENDOR (vendorId : String)
  | LOAD_CART (payload : CartState)
deriving DecidableEq, Repr

/-- `cartReducer`.  A thrown exception (the cross-vendor guard in
`ADD_ITEM`) is modelled as `none`; React leaves the state value unchanged
when the reducer throws.  Vendor ids are treated as `string | null` per the
TypeScript types; JavaScript falsiness of the empty string is not
modelled. -/
def cartReducer (state : CartState) : CartAction → Option CartState
  | .ADD_ITEM p q =>
    -- Only allow adding items from the same vendor
    if state.vendorId ≠ none ∧ state.vendorId ≠ some p.vendor_id then
      none
    else
      let oldQty := ((lookupItem state.items p.id).map (fun it => it.quantity)).getD 0
      some { vendorId := some (state.vendorId.getD p.vendor_id),
             items := setEntry state.items p.id ⟨some p, oldQty + q⟩ }
  | .REMOVE_ITEM pid =>
    let remaining := removeEntry state.items pid
    -- If cart is empty, clear vendor
    some { items := remaining,
           vendorId := if remaining.isEmpty then none else state.vendorId }
  | .UPDATE_QUANTITY pid q =>
    if q ≤ 0 then
      let remaining := removeEntry state.items pid
      some { items := remaining,
             vendorId := if remaining.isEmpty then none else state.vendorId }
    else
      some { state with
             items := setEntry state.items pid
               ⟨(lookupItem state.items pid).bind (fun it => it.product), q⟩ }
  | .CLEAR_CART => some initialState
  | .SET_VENDOR v =>
    if state.vendorId ≠ none ∧ state.vendorId ≠ some v then
      -- If changing vendors, clear the cart
      some ⟨[], some v⟩
    else
      some { state with vendorId := some v }
  | .LOAD_CART s => some s

/-- Running a sequence of dispatches; an action whose reducer call throws
leaves the state as it was. -/
def runCart (s : CartState) : List CartAction → CartState
  | [] => s
  | a :: rest => runCart ((cartReducer s a).getD s) rest

/-- `getTotalAmount`: `Σ item.price * item.quantity` over `Object.values`.
An item produced by the degenerate `UPDATE_QUANTITY` spread has no `price`
field; the resulting `NaN`-poisoned sum is modelled as `none`. -/
def getTotalAmount (s : CartState) : Option ℚ :=
  s.items.foldl
    (fun acc e => do
      let t ← acc
      let p ← e.2.product
      pure (t + p.price * (e.2.quantity : ℚ)))
    (some 0)

/-! ## Checkout (`handlePlaceOrder`, `src/app/(tabs)/cart.tsx`) -/

/-- Result of a checkout attempt: the store afterwards and whether the
`try` block ran to completion (`ok = false` when a thrown insert error was
caught by the `catch`). -/
structure PlaceOrderResult where
  db : DB
  ok : Bool
deriving DecidableEq, Repr

/-- `handlePlaceOrder`: inserts the order row (status `PLACED`,
`vendor_id := cartState.vendorId`, `total_amount := getTotalAmount()`),
then inserts one `order_items` row per cart entry with the quantity and
the price cached in the cart.  The two inserts are separate requests; the
Booleans say whether the backend fails the respective insert.  A failure
is thrown and caught by the surrounding `catch`, which only shows a toast:
whatever was already inserted stays.  (The early `!selectedAddress` return
and the address snapshot are not modelled; no claim involves them.) -/
def handlePlaceOrder (db : DB) (customerId orderId : String) (cart : CartState)
    (orderInsertFails itemsInsertFails : Bool) : PlaceOrderResult :=
  if orderInsertFails then ⟨db, false⟩
  else
    let order : OrderRow :=
      ⟨orderId, customerId, cart.vendorId, .PLACED, getTotalAmount cart⟩
    let db1 : DB := { db with orders := db.orders ++ [order] }
    if itemsInsertFails then ⟨db1, false⟩
    else
      let orderItems : List OrderItemRow :=
        cart.items.map (fun e =>
          ⟨orderId, e.1, e.2.quantity, e.2.product.map (fun p => p.price)⟩)
      ⟨{ db1 with order_items := db1.order_items ++ orderItems }, true⟩

/-! ## Inventory decrement (`updateInventoryQuantities`,
`src/app/(tabs)/orders.tsx`) -/

/-- `OrderItemForUpdate`. -/
structure OrderItemForUpdate where
  product_id : String
  quantity : ℤ
  name : String
deriving DecidableEq, Repr

/-- The per-item loop of `updateInventoryQuantities`.  `snapshot` is the
result of the initial `select id, inventory_count` fetch and is *not*
re-read between iterations; each successful iteration issues an absolute
`update({ inventory_count: newCount })` against the live store.  On an
insufficient count the error is thrown immediately: earlier iterations'
writes remain in the store. -/
def updateInventoryLoop (snapshot : List Product) :
    List Product → List OrderItemForUpdate → List Product × Option String
  | store, [] => (store, none)
  | store, it :: rest =>
    match snapshot.find? (fun p => p.id = it.product_id) with
    | none => updateInventoryLoop snapshot store rest
    | some p =>
      let newCount := p.inventory_count - it.quantity
      if newCount < 0 then
        (store, some ("Insufficient inventory for " ++ it.name))
      else
        updateInventoryLoop snapshot
          (store.map (fun q =>
            if q.id = it.product_id then { q with inventory_count := newCount } else q))
          rest

/-- `updateInventoryQuantities`: fetch the snapshot of the referenced
products, then run the decrement loop.  Returns the store after the call
together with `some errorMessage` when the loop threw. -/
def updateInventoryQuantities (store : List Product)
    (items : List OrderItemForUpdate) : List Product × Option String :=
  let snapshot :=
    store.filter (fun p => items.any (fun it => it.product_id = p.id))
  updateInventoryLoop snapshot store items

/-! ## Vendor order actions (`handleOrderAction`, `handleUpdateStatus`) -/

/-- The `action: 'ACCEPTED' | 'REJECTED'` parameter of
`handleOrderAction`. -/
inductive OrderAction where
  | accepted
  | rejected
deriving DecidableEq, Repr

/-- `update({ status }).eq('id', orderId)` on the `orders` table. -/
def setStatus (orders : List OrderRow) (oid : String) (st : OrderStatus) :
    List OrderRow :=
  orders.map (fun o => if o.id = oid then { o with status := st } else o)

/-- Status of an order, as read back from the store. -/
def statusOf (db : DB) (oid : String) : Option OrderStatus :=
  (db.orders.find? (fun o => o.id = oid)).map (fun o => o.status)

/-- Name lookup for the `products ( name )` join in the order-items
fetch. -/
def productName (db : DB) (pid : String) : String :=
  ((db.products.find? (fun p => p.id = pid)).map (fun p => p.name)).getD ""

/-- The `order_items` fetched (with joined product names) by
`handleOrderAction` before an acceptance. -/
def orderItemsForUpdate (db : DB) (oid : String) : List OrderItemForUpdate :=
  (db.order_items.filter (fun oi => oi.order_id = oid)).map
    (fun oi => ⟨oi.product_id, oi.quantity, productName db oi.product_id⟩)

/-- `handleOrderAction`: on `ACCEPTED` it fetches the order's items, runs
`updateInventoryQuantities`, and only if that did not throw proceeds to the
status write; a thrown decrement error is caught (toast) and the status
write never executes, though the decrement's partial writes remain.  On
`REJECTED` it writes the status directly. -/
def handleOrderAction (db : DB) (orderId : String) (action : OrderAction) : DB :=
  match action with
  | .accepted =>
    let r := updateInventoryQuantities db.products (orderItemsForUpdate db orderId)
    match r.2 with
    | some _ => { db with products := r.1 }
    | none => { db with products := r.1,
                        orders := setStatus db.orders orderId .ACCEPTED }
  | .rejected => { db with orders := setStatus db.orders orderId .REJECTED }

/-- `handleUpdateStatus`: a bare `update({ status: newStatus })` with no
validation of the current status. -/
def handleUpdateStatus (db : DB) (orderId : String) (newStatus : OrderStatus) : DB :=
  { db with orders := setStatus db.orders orderId newStatus }

/-! ## Status-button gating in the rendered order card
(`src/app/(tabs)/orders.tsx`, the vendor `actions` block) -/

/-- The `ORDER_STATUSES` array. -/
def ORDER_STATUSES : List OrderStatus :=
  [.PLACED, .ACCEPTED, .PREPARING, .OUT_FOR_DELIVERY, .DELIVERED, .REJECTED]

/-- The target statuses for which the vendor UI renders a button on an
order with status `s`: Accept/Reject buttons when `s = PLACED`; nothing on
the terminal statuses; otherwise one "Mark as" button for the status at
index `ORDER_STATUSES.indexOf(s) + 1`. -/
def offeredTransitions (s : OrderStatus) : List OrderStatus :=
  if s = .PLACED then [.ACCEPTED, .REJECTED]
  else if s = .DELIVERED ∨ s = .REJECTED then []
  else
    let currentIndex := ORDER_STATUSES.indexOf s
    (ORDER_STATUSES.enum.filter (fun p => p.1 = currentIndex + 1)).map
      (fun p => p.2)

/-- The five legal transitions as enumerated by the specification
(PLACED→ACCEPTED, PLACED→REJECTED, ACCEPTED→PREPARING,
PREPARING→OUT_FOR_DELIVERY, OUT_FOR_DELIVERY→DELIVERED); stated from the
spec's words for comparison with the code-derived definitions. -/
def legalTransition : OrderStatus → OrderStatus → Bool
  | .PLACED, .ACCEPTED => true
  | .PLACED, .REJECTED => true
  | .ACCEPTED, .PREPARING => true
  | .PREPARING, .OUT_FOR_DELIVERY => true
  | .OUT_FOR_DELIVERY, .DELIVERED => true
  | _, _ => false

/-! ## Vendor product edit (`updateItem`, `src/app/(tabs)/inventory.tsx`) -/

/-- `updateItem`: the vendor's edit dialog writes new `price` and
`inventory_count` onto the product row; it touches only the `products`
table. -/
def updateItem (db : DB) (pid : String) (newPrice : ℚ) (newCount : ℤ) : DB :=
  { db with
    products := db.products.map (fun p =>
      if p.id = pid then { p with price := newPrice, inventory_count := newCount }
      else p) }

/-! ## Radius query (`get_active_vendors`,
`src/sql/create_get_vendors_within_radius.sql`)

The PostGIS geodesic primitives (`ST_Distance`, `ST_DWithin` and the
geography `<->` operator, all of which measure meters on the spheroid
between the same pair of points) are modelled by a single distance
function passed as a parameter `dist`. -/

/-- A PostGIS point, built by `ST_MakePoint(user_lng, user_lat)`. -/
structure GeoPoint where
  lng : ℚ
  lat : ℚ
deriving DecidableEq, Repr

/-- A row of the `vendor_locations` table.  `updated_at` is a timestamp,
modelled as an integer. -/
structure VendorLocationRow where
  vendor_id : String
  location : Option GeoPoint
  is_active : Bool
  updated_at : ℤ
deriving DecidableEq, Repr

/-- A row of the `vendors` table (`business_name` is nullable: the outer
query filters on `business_name IS NOT NULL`). -/
structure VendorRow where
  id : String
  business_name : Option String
  contact : String
deriving DecidableEq, Repr

/-- A row of the `reviews` table (only the columns the query touches). -/
structure ReviewRow where
  vendor_id : String
  rating : ℚ
deriving DecidableEq, Repr

/-- The tables read by `get_active_vendors`. -/
structure GeoDB where
  vendors : List VendorRow
  vendor_locations : List VendorLocationRow
  reviews : List ReviewRow
  products : List Product
deriving DecidableEq, Repr

/-- One record of the `active_vendors` CTE. -/
structure ActiveVendorRec where
  vendor_id : String
  location : GeoPoint
  is_active : Bool
deriving DecidableEq, Repr

/-- The row selected by `DISTINCT ON (vendor_id) ... WHERE location IS NOT
NULL ORDER BY vendor_id, updated_at DESC` for one vendor: among the
vendor's rows with a non-null location, the one with the greatest
`updated_at` (first in table order on a tie — Postgres picks an arbitrary
but single row among equal sort keys). -/
def latestLocation (rows : List VendorLocationRow) (vid : String) :
    Option VendorLocationRow :=
  (rows.filter (fun r => r.vendor_id = vid ∧ r.location.isSome)).foldl
    (fun best r =>
      match best with
      | none => some r
      | some b => if b.updated_at < r.updated_at then some r else some b)
    none

/-- The `active_vendors` CTE: one record per vendor id occurring in
`vendor_locations`, carrying that vendor's most recent non-null location
and the `is_active` flag of the same row.  Note the CTE does *not* filter
on `is_active`. -/
def activeVendors (db : GeoDB) : List ActiveVendorRec :=
  ((db.vendor_locations.map (fun r => r.vendor_id)).dedup).filterMap
    (fun vid =>
      (latestLocation db.vendor_locations vid).bind (fun r =>
        r.location.map (fun loc => ⟨vid, loc, r.is_active⟩)))

/-- The `vendor_ratings` CTE value for one vendor, combined with the outer
`COALESCE(..., 0)`: `(avg rating as 0 when no reviews, review count)`. -/
def vendorRating (db : GeoDB) (vid : String) : ℚ × ℤ :=
  let rs := db.reviews.filter (fun r => r.vendor_id = vid)
  (if rs.length = 0 then 0 else (rs.map (fun r => r.rating)).sum / rs.length,
   rs.length)

/-- The `recent_products` CTE value for one vendor, combined with the outer
`COALESCE(..., '[]')`: up to 3 in-stock products as `(name, price)` pairs.
`row_number()` is used with no `ORDER BY`, so the choice among eligible
products is implementation-defined; table order models it. -/
def recentProducts (db : GeoDB) (vid : String) : List (String × ℚ) :=
  ((db.products.filter (fun p => p.vendor_id = vid ∧ 0 < p.inventory_count)).take 3).map
    (fun p => (p.name, p.price))

/-- A row of the `RETURNS TABLE` of `get_active_vendors`.  `distance` is
the exact `ST_Distance` value; `distance_meters` is its `cast(... as
integer)` (rounded to the nearest integer). -/
structure VendorResultRow where
  id : String
  business_name : String
  contact : String
  distance : ℚ
  distance_meters : ℤ
  is_active : Bool
  avg_rating : ℚ
  review_count : ℤ
  recent_products : List (String × ℚ)
deriving DecidableEq, Repr

/-- The body of `get_active_vendors(user_lat, user_lng,
max_distance_meters)`: join `active_vendors` with `vendors` (dropping rows
with a null `business_name`), keep rows with `ST_DWithin(location, query
point, max_distance_meters)` — i.e. geodesic distance ≤ the radius — order
by the geography distance operator ascending, and `LIMIT 50`. -/
def get_active_vendors (dist : GeoPoint → GeoPoint → ℚ) (db : GeoDB)
    (user_lat user_lng : ℚ) (max_distance_meters : ℤ) : List VendorResultRow :=
  let q : GeoPoint := ⟨user_lng, user_lat⟩
  let rows : List VendorResultRow :=
    (activeVendors db).filterMap (fun av =>
      match db.vendors.find? (fun v => v.id = av.vendor_id) with
      | none => none
      | some v =>
        match v.business_name with
        | none => none
        | some bn =>
          if dist av.location q ≤ (max_distance_meters : ℚ) then
            some ⟨v.id, bn, v.contact, dist av.location q,
                  round (dist av.location q), av.is_active,
                  (vendorRating db av.vendor_id).1,
                  (vendorRating db av.vendor_id).2,
                  recentProducts db av.vendor_id⟩
          else none)
  (rows.mergeSort (fun a b => a.distance ≤ b.distance)).take 50

/-! ## Concurrent acceptance (`updateInventoryQuantities` from two
sessions)

Each vendor session performing an acceptance of a one-line-item order
executes, against the shared product row, the two requests of
`updateInventoryQuantities`: first the `select inventory_count` fetch
(the snapshot), then — after the client-side check `snapshot - quantity
>= 0` — the absolute write `update({ inventory_count: snapshot -
quantity })`.  The backend serializes individual requests, so an
interleaving of two sessions is a sequence of atomic `read` and `write`
steps. -/

/-- The two backend requests a session issues for its single line item. -/
inductive AcceptStep where
  | read
  | write
deriving DecidableEq, Repr

/-- A session's private state: the fetched snapshot (if the read happened
yet) and the outcome (`some true` = decrement succeeded and the order was
moved to `ACCEPTED`; `some false` = the insufficient-inventory error was
thrown and the order stayed `PLACED`). -/
structure SessionState where
  snap : Option ℤ
  done : Option Bool
deriving DecidableEq, Repr

/-- One atomic step of a session against the shared count.  A `write`
before the session's `read`, or after it finished, does nothing (such
schedules do not arise from the source's request order). -/
def acceptStep (count : ℤ) (qty : ℤ) (c : SessionState) :
    AcceptStep → ℤ × SessionState
  | .read => (count, { c with snap := some count })
  | .write =>
    match c.snap, c.done with
    | some r, none =>
      if r - qty < 0 then (count, { c with done := some false })
      else (r - qty, { c with done := some true })
    | _, _ => (count, c)

/-- Interleaved execution of two sessions (`false` = session A, `true` =
session B) decrementing the same product by `qtyA` and `qtyB`. -/
def runSchedule (qtyA qtyB : ℤ) :
    ℤ × SessionState × SessionState → List (Bool × AcceptStep) →
    ℤ × SessionState × SessionState
  | st, [] => st
  | (count, a, b), (who, s) :: rest =>
    if who then
      let (count', b') := acceptStep count qtyB b s
      runSchedule qtyA qtyB (count', a, b') rest
    else
      let (count', a') := acceptStep count qtyA a s
      runSchedule qtyA qtyB (count', a', b) rest

/-- The initial joint state for a product with the given stock. -/
def initialJoint (stock : ℤ) : ℤ × SessionState × SessionState :=
  (stock, ⟨none, none⟩, ⟨none, none⟩)

/-! ## Comparison definition from the specification -/

/-- Stated from the spec's words, for comparison with `handlePlaceOrder`:
the server-side order total — the sum over the order's items of quantity
times the referenced product's price *currently stored in the products
table* at placement time. -/
def specServerTotal (db : DB) (cart : CartState) : ℚ :=
  cart.items.foldl
    (fun t e =>
      t + (((db.products.find? (fun p => p.id = e.1)).map (fun p => p.price)).getD 0)
            * (e.2.quantity : ℚ))
    0

/-! ## Safe action sequences -/

/-- A cart action is safe in a state when it is not `LOAD_CART` and, if it
is `UPDATE_QUANTITY` with a positive quantity, its product id is currently
in the cart (the UI's `handleQuantityChange` reads
`cartState.items[productId]` first, so this is how the screens invoke
it). -/
def SafeHead (s : CartState) : CartAction → Bool
  | .UPDATE_QUANTITY pid q => decide (q ≤ 0) || (lookupItem s.items pid).isSome
  | .LOAD_CART _ => false
  | _ => true

/-- Safety of a whole sequence, walking the states it visits. -/
def SafeActs : CartState → List CartAction → Bool
  | _, [] => true
  | s, a :: rest => SafeHead s a && SafeActs ((cartReducer s a).getD s) rest

/-- The single-vendor cart invariant: every item's cached `vendor_id` is
the cart's `vendorId`, and a cart with no vendor holds no items. -/
def CartInv (s : CartState) : Prop :=
  (∀ e ∈ s.items, e.2.product.map (fun p => p.vendor_id) = s.vendorId) ∧
  (s.vendorId = none → s.items = [])

/-! ## Concrete instances used in the theorems -/

/-- A degenerate distance function (every pair of points at distance 0),
used to instantiate the parametric geodesic distance on concrete
examples. -/
def distZero : GeoPoint → GeoPoint → ℚ := fun _ _ => 0

/-- One vendor whose only `vendor_locations` row is inactive. -/
def geoDbInactive : GeoDB :=
  ⟨[⟨"v1", some "Shop One", "123"⟩], [⟨"v1", some ⟨0, 0⟩, false, 1⟩], [], []⟩

/-- One vendor with an active location row. -/
def geoDbActive : GeoDB :=
  ⟨[⟨"v2", some "Shop Two", "456"⟩], [⟨"v2", some ⟨76, 10⟩, true, 5⟩], [], []⟩

/-- The result row `get_active_vendors distZero geoDbActive 0 0 500`
produces for `geoDbActive`'s vendor. -/
def rowActive : VendorResultRow := ⟨"v2", "Shop Two", "456", 0, 0, true, 0, 0, []⟩

/-- The product as stored in the `products` table: price 10. -/
def prodTeaStore : Product := ⟨"p1", "vA", "Tea", 10, 5⟩

/-- The stale copy of the same product cached in the cart when it was
added: price 5 (the vendor has since raised the stored price to 10). -/
def prodTeaCached : Product := ⟨"p1", "vA", "Tea", 5, 5⟩

/-- Store holding the current (raised) price of the tea product. -/
def dbTea : DB := ⟨[], [], [prodTeaStore]⟩

/-- A cart holding one tea at the stale cached price. -/
def cartTea : CartState := ⟨[("p1", ⟨some prodTeaCached, 1⟩)], some "vA"⟩

/-- A product of vendor `vA`. -/
def prodA : Product := ⟨"pa", "vA", "Apple", 3, 10⟩

/-- A product of a different vendor `vB`. -/
def prodB : Product := ⟨"pb", "vB", "Bread", 4, 10⟩

/-- A cart whose items mix products of vendors `vA` and `vB`. -/
def cartMixed : CartState :=
  ⟨[("pa", ⟨some prodA, 1⟩), ("pb", ⟨some prodB, 1⟩)], some "vA"⟩

/-- A store with a `PLACED` order for one unit of an out-of-stock
product. -/
def dbAccept : DB :=
  ⟨[⟨"o1", "c1", some "vA", .PLACED, some 5⟩],
   [⟨"o1", "p2", 1, some 5⟩],
   [⟨"p2", "vA", "Bread", 5, 0⟩]⟩

/-- A store with a single `PLACED` order and no items. -/
def dbPlaced : DB := ⟨[⟨"o1", "c1", some "vA", .PLACED, some 5⟩], [], []⟩

/-- A cart with one `vA` item, used to witness the cross-vendor guard. -/
def cartSingleA : CartState := ⟨[("pa", ⟨some prodA, 2⟩)], some "vA"⟩

/-- A safe action sequence exercising add, in-cart quantity update, a
thrown cross-vendor add, a vendor switch and a removal. -/
def actsSafe : List CartAction :=
  [.ADD_ITEM prodA 1, .UPDATE_QUANTITY "pa" 3, .ADD_ITEM prodB 1,
   .SET_VENDOR "vB", .REMOVE_ITEM "pa"]

/-! # Theorems -/

/-- C1: the radius query does not implement the claimed selection rule.
A vendor whose most recent (and only) `vendor_locations` row carries
`is_active = false` is still returned by `get_active_vendors` — neither the
`active_vendors` CTE nor the outer `WHERE` filters on `is_active`; the flag
is merely returned as a column.  This evaluates the code at the failing
input. -/
theorem inactive_vendor_is_returned :
    (get_active_vendors distZero geoDbInactive 0 0 30000).map
        (fun r => (r.id, r.is_active)) = [("v1", false)] := by
  norm_num [get_active_vendors, activeVendors, latestLocation, geoDbInactive,
    distZero, vendorRating, recentProducts, List.dedup, List.dedup_cons_of_not_mem,
    List.mergeSort_singleton, List.filterMap, List.find?, List.filter]

/-- C2: the batch inventory decrement is not all-or-nothing.  On an order
with two line items where the first product has stock and the second does
not, the call fails with the insufficient-inventory error, yet the first
product's `inventory_count` has already been written down (5 → 4). -/
theorem batch_decrement_leaves_earlier_writes :
    updateInventoryQuantities
        [⟨"p1", "vA", "Apple", 10, 5⟩, ⟨"p2", "vA", "Bread", 10, 0⟩]
        [⟨"p1", 1, "Apple"⟩, ⟨"p2", 1, "Bread"⟩] =
      ([⟨"p1", "vA", "Apple", 10, 4⟩, ⟨"p2", "vA", "Bread", 10, 0⟩],
       some "Insufficient inventory for Bread") := by
  decide

/-- C4: the decrement check and write do not serialize.  With stock 2 and
two concurrent acceptances each needing 2 units, the interleaving
read-A, read-B, write-A, write-B makes *both* sessions pass the client-side
check against their stale snapshot of 2 and issue the absolute write
`inventory_count := 0`; both succeed (`done = some true`), contradicting
"exactly one succeeds and the other fails with InsufficientStock". -/
theorem concurrent_accepts_both_succeed :
    runSchedule 2 2 (initialJoint 2)
        [(false, .read), (true, .read), (false, .write), (true, .write)] =
      (0, ⟨some 2, some true⟩, ⟨some 2, some true⟩) := by
  decide

/-- C5 counterexample: a skip transition does not fail.  On an order in
`PLACED`, directly invoking `handleUpdateStatus` with `DELIVERED` (skipping
three states) succeeds and overwrites the stored status — there is no
`InvalidTransition` check anywhere in the update path. -/
theorem skip_transition_succeeds :
    statusOf (handleUpdateStatus dbPlaced "o1" .DELIVERED) "o1" =
      some .DELIVERED := by
  decide

/-- C6 counterexample: the order total is not the server-side current
price.  The store prices tea at 10, the cart cached it at 5 when it was
added; the created order's `total_amount` is 5 (the cached price), not the
10 the specification's server-side rule computes. -/
theorem total_uses_cached_not_current_price :
    ((handlePlaceOrder dbTea "c1" "o1" cartTea false false).db.orders.map
        (fun o => o.total_amount)) = [some 5] ∧
    specServerTotal dbTea cartTea = 10 := by
  norm_num [handlePlaceOrder, dbTea, cartTea, getTotalAmount, specServerTotal,
    prodTeaCached, prodTeaStore, List.find?]

/-- C7: checkout is not atomic.  When the `order_items` insert fails after
the `orders` insert succeeded, the caught error leaves the order row
visible with no items — evaluating the code at the failing input. -/
theorem order_without_items_on_failed_items_insert :
    (handlePlaceOrder dbTea "c1" "o1" cartTea false true).ok = false ∧
    ((handlePlaceOrder dbTea "c1" "o1" cartTea false true).db.orders.map
        (fun o => o.id)) = ["o1"] ∧
    (handlePlaceOrder dbTea "c1" "o1" cartTea false true).db.order_items = [] := by
  decide

/-- C8 counterexample: submitting a cart that mixes vendors `vA` and `vB`
to the checkout does not fail with `CrossVendorViolation` — no check
exists there — and both the order row and both item rows are written. -/
theorem cross_vendor_cart_is_written :
    (handlePlaceOrder dbTea "c2" "o2" cartMixed false false).ok = true ∧
    ((handlePlaceOrder dbTea "c2" "o2" cartMixed false false).db.orders.map
        (fun o => (o.id, o.vendor_id))) = [("o2", some "vA")] ∧
    ((handlePlaceOrder dbTea "c2" "o2" cartMixed false false).db.order_items.map
        (fun i => i.product_id)) = ["pa", "pb"] := by
  decide

/-- C10 counterexample: `updateQuantity` with a positive quantity for a
product id not in the cart inserts a degenerate item with no product
fields (the JavaScript spread of `undefined`), so the cart then holds an
item whose `vendor_id` is not the cart's `vendorId`. -/
theorem ghost_update_breaks_vendor_invariant :
    ¬ (∀ e ∈ (runCart initialState
          [.ADD_ITEM prodA 1, .UPDATE_QUANTITY "ghost" 2]).items,
        e.2.product.map (fun p => p.vendor_id) =
          (runCart initialState
            [.ADD_ITEM prodA 1, .UPDATE_QUANTITY "ghost" 2]).vendorId) := by
  decide

/-- C3: on the PLACED→ACCEPTED path the inventory batch decrement runs
before the status write, and when the decrement throws, the caught error
skips the status write entirely: the `orders` table is untouched (so a
`PLACED` order stays `PLACED`), while the store carries exactly the
decrement call's (possibly partial) product writes. -/
theorem accept_failure_keeps_order_placed (db : DB) (oid : String)
    (hfail : (updateInventoryQuantities db.products
        (orderItemsForUpdate db oid)).2.isSome = true) :
    (handleOrderAction db oid .accepted).orders = db.orders ∧
    (handleOrderAction db oid .accepted).products =
      (updateInventoryQuantities db.products (orderItemsForUpdate db oid)).1 ∧
    statusOf (handleOrderAction db oid .accepted) oid = statusOf db oid := by
  cases h : (updateInventoryQuantities db.products (orderItemsForUpdate db oid)).2 with
  | none => rw [h] at hfail; simp at hfail
  | some e => simp [handleOrderAction, h, statusOf]

/-- Witness for C3: on a store with a `PLACED` order for one unit of an
out-of-stock product, the decrement fails and the acceptance leaves the
order's status untouched. -/
theorem accept_failure_keeps_order_placed_witness :
    (updateInventoryQuantities dbAccept.products
        (orderItemsForUpdate dbAccept "o1")).2.isSome = true ∧
    statusOf (handleOrderAction dbAccept "o1" .accepted) "o1" =
      statusOf dbAccept "o1" :=
  ⟨by decide, (accept_failure_keeps_order_placed dbAccept "o1" (by decide)).2.2⟩

/-- C5 (amended): the vendor UI renders a transition button exactly for
the five legal transitions — Accept/Reject on `PLACED`, the single next
status otherwise, nothing on the terminals — while `handleUpdateStatus`
itself validates nothing: it unconditionally writes whatever status it is
handed, touching no other table. -/
theorem ui_offers_exactly_legal_transitions :
    (∀ s t : OrderStatus, t ∈ offeredTransitions s ↔ legalTransition s t = true) ∧
    (∀ (db : DB) (oid : String) (st : OrderStatus),
      (handleUpdateStatus db oid st).orders = setStatus db.orders oid st ∧
      (handleUpdateStatus db oid st).order_items = db.order_items ∧
      (handleUpdateStatus db oid st).products = db.products) :=
  ⟨by decide, fun db oid st => ⟨rfl, rfl, rfl⟩⟩

/-- C6 (amended): the created order's `total_amount` is `getTotalAmount` —
the client-side sum of cart-cached price times quantity — and each created
`order_items` row freezes the cart-cached price; a later product edit via
`updateItem` changes only the `products` table, never the order rows or
item rows. -/
theorem order_prices_frozen_from_cart (db : DB) (cid oid : String)
    (cart : CartState) (pid : String) (newPrice : ℚ) (newCount : ℤ) :
    (handlePlaceOrder db cid oid cart false false).db.orders =
      db.orders ++ [⟨oid, cid, cart.vendorId, .PLACED, getTotalAmount cart⟩] ∧
    (handlePlaceOrder db cid oid cart false false).db.order_items =
      db.order_items ++ cart.items.map (fun e =>
        ⟨oid, e.1, e.2.quantity, e.2.product.map (fun p => p.price)⟩) ∧
    (updateItem (handlePlaceOrder db cid oid cart false false).db
        pid newPrice newCount).orders =
      (handlePlaceOrder db cid oid cart false false).db.orders ∧
    (updateItem (handlePlaceOrder db cid oid cart false false).db
        pid newPrice newCount).order_items =
      (handlePlaceOrder db cid oid cart false false).db.order_items :=
  ⟨rfl, rfl, rfl, rfl⟩

/-- C8 (amended): the cross-vendor guard lives in the cart reducer, not in
checkout — adding a product from a different vendor than the cart's
current one throws, leaving the cart unchanged, whereas `handlePlaceOrder`
itself contains no vendor check and completes for any cart the backend
accepts. -/
theorem cross_vendor_blocked_in_cart_not_checkout
    (s : CartState) (p : Product) (q : ℤ) (v : String)
    (hs : s.vendorId = some v) (hne : p.vendor_id ≠ v) :
    cartReducer s (.ADD_ITEM p q) = none ∧
    runCart s [.ADD_ITEM p q] = s ∧
    (∀ (db : DB) (cid oid : String),
      (handlePlaceOrder db cid oid s false false).ok = true) := by
  have hguard : s.vendorId ≠ none ∧ s.vendorId ≠ some p.vendor_id := by
    refine ⟨by rw [hs]; simp, by rw [hs]; intro hc; exact hne (Option.some.inj hc).symm⟩
  have hred : cartReducer s (.ADD_ITEM p q) = none := by
    simp only [cartReducer, if_pos hguard]
  exact ⟨hred, by simp [runCart, hred], fun db cid oid => rfl⟩

/-- Witness for C8 (amended): a cart holding a `vA` item rejects the
addition of the `vB` product. -/
theorem cross_vendor_blocked_witness :
    cartSingleA.vendorId = some "vA" ∧ prodB.vendor_id ≠ "vA" ∧
    cartReducer cartSingleA (.ADD_ITEM prodB 1) = none :=
  ⟨rfl, by decide,
   (cross_vendor_blocked_in_cart_not_checkout cartSingleA prodB 1 "vA" rfl
      (by decide)).1⟩

/-- C9: for every distance model, store and query, each returned row's
distance — which is the geodesic distance between the query point and the
latest stored location of the row's vendor — is at most the radius, the
result list is sorted by that distance in non-decreasing order, and it
holds at most 50 rows. -/
theorem radius_query_within_sorted_limited
    (dist : GeoPoint → GeoPoint → ℚ) (db : GeoDB) (user_lat user_lng : ℚ)
    (maxd : ℤ) :
    (∀ r ∈ get_active_vendors dist db user_lat user_lng maxd,
        r.distance ≤ (maxd : ℚ) ∧
        ∃ av ∈ activeVendors db, av.vendor_id = r.id ∧
          r.distance = dist av.location ⟨user_lng, user_lat⟩) ∧
    List.Pairwise (fun a b => a.distance ≤ b.distance)
      (get_active_vendors dist db user_lat user_lng maxd) ∧
    (get_active_vendors dist db user_lat user_lng maxd).length ≤ 50 := by
  refine ⟨?_, ?_, ?_⟩
  · intro r hr
    unfold get_active_vendors at hr
    have h1 := List.mem_of_mem_take hr
    have h2 := (List.mergeSort_perm _ _).mem_iff.mp h1
    rcases List.mem_filterMap.mp h2 with ⟨av, hav, heq⟩
    split at heq
    · exact absurd heq (by simp)
    · rename_i v hfind
      split at heq
      · exact absurd heq (by simp)
      · rename_i bn hbn
        split at heq
        · rename_i hd
          have hr' := Option.some.inj heq
          subst hr'
          have hvid : v.id = av.vendor_id := by
            have h := List.find?_some hfind
            simpa using h
          exact ⟨hd, av, hav, hvid.symm, rfl⟩
        · exact absurd heq (by simp)
  · unfold get_active_vendors
    apply List.Pairwise.sublist (List.take_sublist _ _)
    have hs := @List.sorted_mergeSort VendorResultRow
      (fun a b : VendorResultRow => decide (a.distance ≤ b.distance))
      (fun a b c hab hbc =>
        decide_eq_true (le_trans (of_decide_eq_true hab) (of_decide_eq_true hbc)))
      (fun a b => by
        simp only [Bool.or_eq_true, decide_eq_true_eq]
        exact le_total a.distance b.distance)
    exact (hs _).imp (fun h => of_decide_eq_true h)
  · unfold get_active_vendors
    exact List.length_take_le _ _

/-- Evaluation of the radius query on the one-active-vendor store, used by
the witness below. -/
theorem get_active_vendors_geoDbActive_eval :
    get_active_vendors distZero geoDbActive 0 0 500 = [rowActive] := by
  norm_num [get_active_vendors, activeVendors, latestLocation, geoDbActive,
    distZero, vendorRating, recentProducts, rowActive, List.dedup,
    List.dedup_cons_of_not_mem, List.mergeSort_singleton, List.filterMap,
    List.find?, List.filter]

/-- Witness for C9: the row returned on the one-active-vendor store is
within the 500 m radius, and the result respects the limit. -/
theorem radius_query_witness :
    rowActive.distance ≤ ((500 : ℤ) : ℚ) ∧
    (get_active_vendors distZero geoDbActive 0 0 500).length ≤ 50 :=
  ⟨((radius_query_within_sorted_limited distZero geoDbActive 0 0 500).1 rowActive
      (by rw [get_active_vendors_geoDbActive_eval]; exact List.mem_singleton_self _)).1,
   (radius_query_within_sorted_limited distZero geoDbActive 0 0 500).2.2⟩

/-- Membership in an object-spread update: the element is the new entry or
was already present. -/
theorem mem_setEntry {items : List (String × CartItem)} {k : String}
    {v : CartItem} {e : String × CartItem} (he : e ∈ setEntry items k v) :
    e = (k, v) ∨ e ∈ items := by
  unfold setEntry at he
  split at he
  · rcases List.mem_map.mp he with ⟨x, hx, hxe⟩
    by_cases hk : x.1 = k
    · rw [if_pos hk] at hxe; left; exact hxe.symm
    · rw [if_neg hk] at hxe; right; rw [← hxe]; exact hx
  · rcases List.mem_append.mp he with h | h
    · right; exact h
    · left; simpa using h

/-- Membership survives a key removal, backwards. -/
theorem mem_removeEntry {items : List (String × CartItem)} {k : String}
    {e : String × CartItem} (he : e ∈ removeEntry items k) : e ∈ items :=
  List.mem_of_mem_filter he

/-- A successful item lookup comes from some entry of the list. -/
theorem lookupItem_mem {items : List (String × CartItem)} {k : String}
    {it : CartItem} (h : lookupItem items k = some it) :
    ∃ e ∈ items, e.2 = it := by
  unfold lookupItem at h
  cases hf : items.find? (fun e => e.1 = k) with
  | none => rw [hf] at h; simp at h
  | some e =>
    rw [hf] at h
    exact ⟨e, List.mem_of_find?_eq_some hf, by simpa using h⟩

/-- One safe dispatch preserves the single-vendor cart invariant. -/
theorem cartInv_step (s : CartState) (a : CartAction) (hinv : CartInv s)
    (hsafe : SafeHead s a = true) :
    CartInv ((cartReducer s a).getD s) := by
  cases a with
  | ADD_ITEM p q =>
    by_cases hguard : s.vendorId ≠ none ∧ s.vendorId ≠ some p.vendor_id
    · simp only [cartReducer, if_pos hguard, Option.getD_none]
      exact hinv
    · simp only [cartReducer, if_neg hguard, Option.getD_some]
      constructor
      · intro e he
        rcases mem_setEntry he with rfl | hmem
        · cases hv : s.vendorId with
          | none => simp [hv]
          | some v =>
            have hvp : v = p.vendor_id := by
              by_contra hne
              exact hguard ⟨by rw [hv]; simp,
                by rw [hv]; intro hc; exact hne (Option.some.inj hc)⟩
            simp [hv, hvp]
        · cases hv : s.vendorId with
          | none =>
            exact absurd hmem (by rw [hinv.2 hv]; simp)
          | some v =>
            have := hinv.1 e hmem
            rw [hv] at this
            simp [this, hv]
      · simp
  | REMOVE_ITEM pid =>
    simp only [cartReducer, Option.getD_some]
    by_cases hemp : (removeEntry s.items pid).isEmpty
    · constructor
      · intro e he
        rw [List.isEmpty_iff.mp hemp] at he
        exact absurd he (by simp)
      · intro _
        exact List.isEmpty_iff.mp hemp
    · constructor
      · intro e he
        simp only [hemp, Bool.false_eq_true, if_neg] at he ⊢
        rw [if_neg (by simp [hemp])]
        exact hinv.1 e (mem_removeEntry (by simpa using he))
      · intro hv
        rw [if_neg (by simp [hemp])] at hv
        rw [hinv.2 hv]
        unfold removeEntry at hemp
        rw [hinv.2 hv] at hemp
        simp at hemp
  | UPDATE_QUANTITY pid q =>
    by_cases hq : q ≤ 0
    · simp only [cartReducer, if_pos hq, Option.getD_some]
      by_cases hemp : (removeEntry s.items pid).isEmpty
      · constructor
        · intro e he
          rw [List.isEmpty_iff.mp hemp] at he
          exact absurd he (by simp)
        · intro _
          exact List.isEmpty_iff.mp hemp
      · constructor
        · intro e he
          rw [if_neg (by simp [hemp])]
          exact hinv.1 e (mem_removeEntry (by simpa using he))
        · intro hv
          rw [if_neg (by simp [hemp])] at hv
          rw [hinv.2 hv]
          unfold removeEntry at hemp
          rw [hinv.2 hv] at hemp
          simp at hemp
    · have hsafe' : (decide (q ≤ 0) || (lookupItem s.items pid).isSome) = true := hsafe
      have hsome : (lookupItem s.items pid).isSome = true := by
        cases hd : decide (q ≤ 0) with
        | true => exact absurd (of_decide_eq_true hd) hq
        | false => rw [hd, Bool.false_or] at hsafe'; exact hsafe'
      rcases Option.isSome_iff_exists.mp hsome with ⟨it, hit⟩
      rcases lookupItem_mem hit with ⟨e0, he0, he0it⟩
      simp only [cartReducer, if_neg hq, Option.getD_some]
      constructor
      · intro e he
        rcases mem_setEntry he with rfl | hmem
        · show (((lookupItem s.items pid).bind fun x => x.product).map
              fun p => p.vendor_id) = s.vendorId
          rw [hit, ← he0it]
          exact hinv.1 e0 he0
        · exact hinv.1 e hmem
      · intro hv
        have : s.items = [] := hinv.2 hv
        rw [this] at hit
        simp [lookupItem] at hit
  | CLEAR_CART =>
    simp only [cartReducer, Option.getD_some]
    exact ⟨by intro e he; exact absurd he (by simp [initialState]), fun _ => rfl⟩
  | SET_VENDOR v =>
    by_cases hguard : s.vendorId ≠ none ∧ s.vendorId ≠ some v
    · simp only [cartReducer, if_pos hguard, Option.getD_some]
      exact ⟨by intro e he; exact absurd he (by simp), by simp⟩
    · simp only [cartReducer, if_neg hguard, Option.getD_some]
      constructor
      · intro e he
        cases hv : s.vendorId with
        | none => exact absurd he (by rw [hinv.2 hv]; simp)
        | some w =>
          have hwv : w = v := by
            by_contra hne
            exact hguard ⟨by rw [hv]; simp,
              by rw [hv]; intro hc; exact hne (Option.some.inj hc)⟩
          have := hinv.1 e he
          rw [hv, hwv] at this
          exact this
      · simp
  | LOAD_CART payload =>
    exact absurd (hsafe : (false : Bool) = true) (by intro h; cases h)

/-- A safe sequence of dispatches preserves the single-vendor cart
invariant. -/
theorem cartInv_run (s : CartState) (acts : List CartAction) (hinv : CartInv s)
    (hsafe : SafeActs s acts = true) : CartInv (runCart s acts) := by
  induction acts generalizing s with
  | nil => exact hinv
  | cons a rest ih =>
    have hsafe' : (SafeHead s a && SafeActs ((cartReducer s a).getD s) rest) = true :=
      hsafe
    rw [Bool.and_eq_true] at hsafe'
    exact ih _ (cartInv_step s a hinv hsafe'.1) hsafe'.2

/-- C10 (amended): starting from the empty cart, after any safe sequence
(no `LOAD_CART`; positive-quantity `updateQuantity` only for products in
the cart, as the UI guarantees) every item's vendor matches the cart's
`vendorId`; adding a product of a different vendor throws and leaves the
cart unchanged; setting a different vendor empties the items; and removing
the last item — also via `updateQuantity` with quantity ≤ 0 — resets
`vendorId` to null. -/
theorem cart_vendor_invariant_for_safe_sequences
    (acts : List CartAction) (hsafe : SafeActs initialState acts = true) :
    (∀ e ∈ (runCart initialState acts).items,
        e.2.product.map (fun p => p.vendor_id) =
          (runCart initialState acts).vendorId) ∧
    (∀ (s : CartState) (p : Product) (q : ℤ) (v : String),
        s.vendorId = some v → p.vendor_id ≠ v →
        cartReducer s (.ADD_ITEM p q) = none ∧ runCart s [.ADD_ITEM p q] = s) ∧
    (∀ (s : CartState) (v w : String), s.vendorId = some w → w ≠ v →
        cartReducer s (.SET_VENDOR v) = some ⟨[], some v⟩) ∧
    (∀ (s : CartState) (pid : String), removeEntry s.items pid = [] →
        cartReducer s (.REMOVE_ITEM pid) = some ⟨[], none⟩) ∧
    (∀ (s : CartState) (pid : String) (q : ℤ), q ≤ 0 →
        removeEntry s.items pid = [] →
        cartReducer s (.UPDATE_QUANTITY pid q) = some ⟨[], none⟩) := by
  refine ⟨(cartInv_run initialState acts ⟨?_, fun _ => rfl⟩ hsafe).1, ?_, ?_, ?_, ?_⟩
  · intro e he
    exact absurd he (by simp [initialState])
  · intro s p q v hs hne
    have hguard : s.vendorId ≠ none ∧ s.vendorId ≠ some p.vendor_id :=
      ⟨by rw [hs]; simp,
       by rw [hs]; intro hc; exact hne (Option.some.inj hc).symm⟩
    have hred : cartReducer s (.ADD_ITEM p q) = none := by
      simp only [cartReducer, if_pos hguard]
    exact ⟨hred, by simp [runCart, hred]⟩
  · intro s v w hs hne
    have hguard : s.vendorId ≠ none ∧ s.vendorId ≠ some v :=
      ⟨by rw [hs]; simp,
       by rw [hs]; intro hc; exact hne (Option.some.inj hc)⟩
    simp only [cartReducer, if_pos hguard]
  · intro s pid hrem
    simp [cartReducer, hrem]
  · intro s pid q hq hrem
    simp [cartReducer, if_pos hq, hrem]

/-- Witness for C10 (amended): a concrete safe sequence — add, in-cart
update, a thrown cross-vendor add, a vendor switch, a removal — satisfies
the invariant. -/
theorem cart_vendor_invariant_witness :
    SafeActs initialState actsSafe = true ∧
    (∀ e ∈ (runCart initialState actsSafe).items,
        e.2.product.map (fun p => p.vendor_id) =
          (runCart initialState actsSafe).vendorId) :=
  ⟨by decide, (cart_vendor_invariant_for_safe_sequences actsSafe (by decide)).1⟩

end KadaVandi
